import Mathlib

/-!
Verification of the pyron conversion core (src/lib.rs): a bridge between the
Python object model and the ron `Value` tree.

The embedding translates the Rust source:
  * `Value` / `Number` mirror the ron / ron_parser value model used by the code
    (the encoder produces `Tuple` without a name; the parser-side value carries
    an optional name, so a single type with `Tuple (Option String)` covers both).
  * `PyObj` is a shallow embedding of the Python objects the code inspects:
    each variant records exactly the classification and attributes that the
    pyo3 downcast/extract calls in `extract` observe.
  * `extract`, `is_namedtuple`, `extract_namedtuple`, `extract_dataclass`,
    `try_val_to_py`, `load` and `loads` follow the Rust functions of the same
    names line by line; external collaborators (the ron pretty printer,
    the ron_parser text parser, the Python runtime's dict insertion and
    `collections.namedtuple`) are modelled at the interface the source uses,
    with comments marking each modelling decision.
-/

namespace Pyron

/-- Numbers of the ron value model: a tagged union of a signed 64-bit integer
(represented as `Int`; the encoder only ever stores values that fit in 64 bits)
and an IEEE-754 double. -/
inductive Number
  | Integer : Int → Number
  | Float : Float → Number

/-- The ron / ron_parser value tree. `Tuple` carries the optional name of the
parser-side `ron_parser::Value::Tuple(name, elems)`; the encoder always
produces `Tuple none elems` (the ron `Value::Tuple(seq)` has no name). -/
inductive Value
  | String : String → Value
  | Char : Char → Value
  | Bool : Bool → Value
  | Number : Number → Value
  | Unit : Value
  | Option : Option Value → Value
  | Seq : List Value → Value
  | Tuple : Option String → List Value → Value
  | Struct : Option String → List (String × Value) → Value
  | Map : List (Value × Value) → Value
  | Include : String → Value

/-- Runtime type information of a Python tuple instance, as observed by
`is_namedtuple`: the names of the immediate bases (`type(x).__bases__`; CPython
guarantees the attribute exists and is a tuple, the generic tuple type is named
"tuple"), the `_fields` attribute (`none` = attribute missing, `some none` =
present but not a tuple, `some (some names)` = a tuple of field names), and the
class name (`type(x).__name__`). -/
structure TupleTypeInfo where
  bases : List String
  fields : Option (Option (List String))
  className : String

/-- Shallow embedding of the Python objects the conversion core inspects. Each
variant records the classification that the chain of pyo3 downcast / extract
calls in `extract` would produce, so the duck-typing order of the source is
captured by the (disjoint) constructors:
  * `dict` — a Python dict as an ordered association list;
  * `tuple info elems asdict` — a tuple instance with its type information,
    its elements, and the result of its `_asdict()` method (empty and unused
    for plain tuples);
  * `list`, `str`, `bool`, `int` (arbitrary precision, as in Python), `float`,
    `none` (the Python `None` singleton);
  * `dataclass name fields` — a dataclass instance with its class name and its
    `__dataclass_fields__` in declaration order;
  * `other` — any other object, carrying its type name for the error message. -/
inductive PyObj
  | dict : List (PyObj × PyObj) → PyObj
  | tuple : TupleTypeInfo → List PyObj → List (String × PyObj) → PyObj
  | list : List PyObj → PyObj
  | str : String → PyObj
  | bool : Bool → PyObj
  | int : Int → PyObj
  | float : Float → PyObj
  | none : PyObj
  | dataclass : String → List (String × PyObj) → PyObj
  | other : String → PyObj

/-- Python exceptions raised by the core: `PyValueError` (all errors the Rust
source constructs) and `PyTypeError` (raised by the Python runtime when
`dict.set_item` receives an unhashable key). -/
inductive PyErr
  | valueError : String → PyErr
  | typeError : String → PyErr

/-- Whether an integer fits in a signed 64-bit integer: pyo3's
`extract::<i64>()` on a Python int succeeds exactly in this range and raises
`OverflowError` otherwise. -/
def fitsI64 (i : Int) : Bool := decide (-(2 ^ 63) ≤ i ∧ i < 2 ^ 63)

/-- Whether a Python int converts to a 64-bit float: pyo3's `extract::<f64>()`
calls CPython's `float(int)`, which raises `OverflowError` exactly when the
value rounds beyond the largest finite double, i.e. when the magnitude reaches
2^1024 - 2^970. -/
def fitsF64 (i : Int) : Bool := decide (i.natAbs < 2 ^ 1024 - 2 ^ 970)

/-- Embedding of `is_namedtuple` (lib.rs:127-145): the type's `__bases__` must
have length 1 and the `_fields` attribute must exist and downcast to a tuple.
The source contains `// TODO: check that bases[0] is tuple` — the check that
the single base is the generic tuple type is NOT performed. -/
def is_namedtuple (info : TupleTypeInfo) : Bool :=
  info.bases.length == 1 &&
    match info.fields with
    | Option.some (Option.some _) => true
    | _ => false

mutual

/-- Embedding of `extract` (lib.rs:81-125): classify a Python object and build
a `Value`. The pyo3 downcast / extract chain is captured by the `PyObj`
variants; for `int`, `extract::<i64>()` succeeds exactly on `fitsI64` and the
fallback `extract::<f64>()` succeeds exactly on `fitsF64` (conversion by
`Float.ofInt`, rounding to nearest as CPython's `float(int)` does). -/
def extract : PyObj → Except PyErr Value
  | .dict kvs =>
    match extractPairs kvs with
    | .error e => .error e
    | .ok ps => .ok (.Map ps)
  | .tuple info elems asdict =>
    -- the named-record path is `extract_namedtuple` (lib.rs:147-162), inlined
    -- here so the mutual recursion stays structural; the standalone
    -- `extract_namedtuple` below is proved equal to this arm
    if is_namedtuple info then
      match extractFields asdict with
      | .error e => .error e
      | .ok fs => .ok (.Struct (Option.some info.className) fs)
    else
      match extractList elems with
      | .error e => .error e
      | .ok vs => .ok (.Tuple Option.none vs)
  | .list xs =>
    match extractList xs with
    | .error e => .error e
    | .ok vs => .ok (.Seq vs)
  | .str s => .ok (.String s)
  | .bool b => .ok (.Bool b)
  | .int i =>
    if fitsI64 i then .ok (.Number (.Integer i))
    else if fitsF64 i then .ok (.Number (.Float (Float.ofInt i)))
    else .error (.valueError "Unsupported type: int")
  | .float f => .ok (.Number (.Float f))
  | .none => .ok (.Option Option.none)
  | .dataclass name fields =>
    -- `extract_dataclass` (lib.rs:164-184), inlined for structural recursion
    match extractFields fields with
    | .error e => .error e
    | .ok fs => .ok (.Struct (Option.some name) fs)
  | .other tyName => .error (.valueError ("Unsupported type: " ++ tyName))
termination_by structural x => x

/-- Elementwise extraction of a sequence (the `for value in ...` loops of
`extract`), failing fast on the first error. -/
def extractList : List PyObj → Except PyErr (List Value)
  | [] => .ok []
  | x :: xs =>
    match extract x with
    | .error e => .error e
    | .ok v =>
      match extractList xs with
      | .error e => .error e
      | .ok vs => .ok (v :: vs)
termination_by structural l => l

/-- Extraction of the entries of a Python dict in insertion order (the
`for (key, value) in dict` loop of `extract`). Building the ron map as a plain
list is faithful here: `ron::Map` preserves insertion order, and deduplication
of structurally equal keys cannot fire on entries of an actual Python dict
except on exotic float keys (two distinct NaN objects), which the round-trip
precondition below excludes. -/
def extractPairs : List (PyObj × PyObj) → Except PyErr (List (Value × Value))
  | [] => .ok []
  | (k, v) :: rest =>
    match extract k with
    | .error e => .error e
    | .ok kv =>
      match extract v with
      | .error e => .error e
      | .ok vv =>
        match extractPairs rest with
        | .error e => .error e
        | .ok ps => .ok ((kv, vv) :: ps)
termination_by structural l => l

/-- Extraction of a name/value field list (the loops of `extract_namedtuple`
and `extract_dataclass`). -/
def extractFields : List (String × PyObj) → Except PyErr (List (String × Value))
  | [] => .ok []
  | (name, v) :: rest =>
    match extract v with
    | .error e => .error e
    | .ok vv =>
      match extractFields rest with
      | .error e => .error e
      | .ok fs => .ok ((name, vv) :: fs)
termination_by structural l => l

end

/-- Embedding of `extract_namedtuple` (lib.rs:147-162): the struct name is the
class name (`type(x).__name__`) and the fields come from the `_asdict()`
mapping in order. -/
def extract_namedtuple (info : TupleTypeInfo) (asdict : List (String × PyObj)) :
    Except PyErr Value :=
  match extractFields asdict with
  | .error e => .error e
  | .ok fs => .ok (.Struct (Option.some info.className) fs)

/-- Embedding of `extract_dataclass` (lib.rs:164-184): the struct name is the
class name and the fields come from `__dataclass_fields__` in order. -/
def extract_dataclass (name : String) (fields : List (String × PyObj)) :
    Except PyErr Value :=
  match extractFields fields with
  | .error e => .error e
  | .ok fs => .ok (.Struct (Option.some name) fs)

/-- The tuple arm of `extract` defers to `extract_namedtuple` exactly when
`is_namedtuple` holds, and the dataclass arm is `extract_dataclass`. -/
theorem extract_tuple_eq (info : TupleTypeInfo) (elems : List PyObj)
    (asdict : List (String × PyObj)) (h : is_namedtuple info = true) :
    extract (.tuple info elems asdict) = extract_namedtuple info asdict := by
  simp [extract, extract_namedtuple, h]

theorem extract_dataclass_eq (name : String) (fields : List (String × PyObj)) :
    extract (.dataclass name fields) = extract_dataclass name fields := rfl

mutual

/-- Model of Python `==` between the objects this core handles, used by the
dict insertion model below. Tuples (incl. named tuples) compare by their
elements only, as in Python; floats compare by IEEE equality (`Float.beq`,
which is what CPython's float `==` performs on two distinct objects).
Python's cross-type numeric equality (`1 == 1.0 == True`) and the identity
shortcut for container members are not modelled; no decoded value depends on
them. Opaque `other` objects compare by their type name as an approximation of
identity. -/
def pyBeq : PyObj → PyObj → Bool
  | .dict a, .dict b => pyBeqPairs a b
  | .tuple _ ea _, .tuple _ eb _ => pyBeqList ea eb
  | .list a, .list b => pyBeqList a b
  | .str a, .str b => a == b
  | .bool a, .bool b => a == b
  | .int a, .int b => a == b
  | .float a, .float b => a == b
  | .none, .none => true
  | .dataclass na fa, .dataclass nb fb => na == nb && pyBeqFields fa fb
  | .other a, .other b => a == b
  | _, _ => false
termination_by structural a => a

def pyBeqList : List PyObj → List PyObj → Bool
  | [], [] => true
  | a :: as', b :: bs' => pyBeq a b && pyBeqList as' bs'
  | _, _ => false
termination_by structural l => l

def pyBeqPairs : List (PyObj × PyObj) → List (PyObj × PyObj) → Bool
  | [], [] => true
  | (ka, va) :: as', (kb, vb) :: bs' => pyBeq ka kb && pyBeq va vb && pyBeqPairs as' bs'
  | _, _ => false
termination_by structural l => l

def pyBeqFields : List (String × PyObj) → List (String × PyObj) → Bool
  | [], [] => true
  | (ka, va) :: as', (kb, vb) :: bs' => ka == kb && pyBeq va vb && pyBeqFields as' bs'
  | _, _ => false
termination_by structural l => l

end

mutual

/-- Model of Python hashability: dicts and lists are unhashable, tuples are
hashable exactly when all their elements are, dataclass instances are
unhashable (the default `eq=True` dataclass sets `__hash__` to `None`), and
the remaining objects (str, bool, int, float, `None`, opaque objects) are
hashable. -/
def hashable : PyObj → Bool
  | .dict _ => false
  | .list _ => false
  | .tuple _ elems _ => hashableList elems
  | .dataclass _ _ => false
  | _ => true
termination_by structural x => x

def hashableList : List PyObj → Bool
  | [] => true
  | x :: xs => hashable x && hashableList xs
termination_by structural l => l

end

/-- The Python type name of an object, for the `TypeError` message of an
unhashable dict key. -/
def typeName : PyObj → String
  | .dict _ => "dict"
  | .tuple info _ _ => info.className
  | .list _ => "list"
  | .str _ => "str"
  | .bool _ => "bool"
  | .int _ => "int"
  | .float _ => "float"
  | .none => "NoneType"
  | .dataclass n _ => n
  | .other n => n

/-- Model of `PyDict::set_item` on a dict represented as an ordered
association list: raises `TypeError` on an unhashable key; otherwise replaces
the value of an existing `==`-equal key in place (keeping the stored key, as
CPython does) or appends a new entry. -/
def setItem (d : List (PyObj × PyObj)) (k v : PyObj) : Except PyErr (List (PyObj × PyObj)) :=
  if hashable k then
    if d.any (fun p => pyBeq p.1 k) then
      .ok (d.map fun p => if pyBeq p.1 k then (p.1, v) else p)
    else .ok (d ++ [(k, v)])
  else .error (.typeError ("unhashable type: " ++ typeName k))

/-- `PyDict::set_item` specialised to string keys (the field dicts the decoder
builds for `Struct` and named `Tuple` values): Python strings are always
hashable and their `==` is string equality, so this total function agrees with
`setItem` on string-keyed dicts. -/
def setItemStr (d : List (String × PyObj)) (k : String) (v : PyObj) :
    List (String × PyObj) :=
  if d.any (fun p => p.1 == k) then
    d.map fun p => if p.1 == k then (p.1, v) else p
  else d ++ [(k, v)]

/-- View of a string-keyed field dict as a Python dict object. -/
def toDictEntries (d : List (String × PyObj)) : List (PyObj × PyObj) :=
  d.map fun kv => (.str kv.1, kv.2)

/-- The synthetic field names `_0, _1, …` paired with the decoded elements, as
built by the named-`Tuple` arms of `try_val_to_py` (lib.rs:236, 240-245,
250-255). The keys are pairwise distinct, so building the dict by repeated
`set_item` yields exactly this list. -/
def enumFields (es : List PyObj) : List (String × PyObj) :=
  es.enum.map fun ie => ("_" ++ toString ie.1, ie.2)

/-- Model of synthesising and instantiating a named record via
`collections.namedtuple(name, fieldNames)(**fields)` (lib.rs:208-210,
232-246): the resulting object is a tuple instance whose type has the single
base `tuple`, whose `_fields` is the tuple of the field names, whose class
name is `name`, whose elements are the field values in order, and whose
`_asdict()` returns the fields. The stdlib's rejection of field names that
are not valid public Python identifiers is not modelled. -/
def mkNamedtuple (name : String) (fields : List (String × PyObj)) : PyObj :=
  .tuple ⟨["tuple"], Option.some (Option.some (fields.map Prod.fst)), name⟩
    (fields.map Prod.snd) fields

/-- The type information of a plain Python tuple produced by
`PyTuple::new` (lib.rs:259): its type is `tuple` itself, whose single base is
`object` and which has no `_fields` attribute. -/
def plainTupleInfo : TupleTypeInfo := ⟨["object"], Option.none, "tuple"⟩

mutual

/-- Embedding of `try_val_to_py` (lib.rs:186-298): rebuild a Python object
from a `Value` tree under the two policy flags. Notes on fidelity:
  * the `Struct` arm builds the field dict first and then dispatches on the
    name and the flags, exactly as the Rust `match` with its two guarded arms
    does (`preserve_structs` is tested before `preserve_class_names`);
  * the named-`Tuple` arms of the source decode the elements once into a vec
    and then decode each element a second time into the field dict; decoding
    is pure, so the second pass yields the same objects and is not repeated
    here;
  * `Value::Char` decodes to a one-character string (pyo3's `IntoPy` for
    `char`), and both `Unit` and `Option(None)` decode to Python `None`. -/
def try_val_to_py : Value → Bool → Bool → Except PyErr PyObj
  | .String s, _, _ => .ok (.str s)
  | .Number (.Float f), _, _ => .ok (.float f)
  | .Number (.Integer i), _, _ => .ok (.int i)
  | .Bool b, _, _ => .ok (.bool b)
  | .Struct name fs, preserve_structs, preserve_class_names =>
    match decodeStructFields fs preserve_structs preserve_class_names [] with
    | .error e => .error e
    | .ok d =>
      match name with
      | Option.some n =>
        if preserve_structs then .ok (mkNamedtuple n d)
        else if preserve_class_names then
          .ok (.dict (toDictEntries (setItemStr d "!__name__" (.str n))))
        else .ok (.dict (toDictEntries d))
      | Option.none => .ok (.dict (toDictEntries d))
  | .Tuple name ts, preserve_structs, preserve_class_names =>
    match decodeList ts preserve_structs preserve_class_names with
    | .error e => .error e
    | .ok elements =>
      match name with
      | Option.some n =>
        if preserve_structs then .ok (mkNamedtuple n (enumFields elements))
        else if preserve_class_names then
          .ok (.dict (toDictEntries
            (setItemStr (enumFields elements) "!__name__" (.str n))))
        else .ok (.tuple plainTupleInfo elements [])
      | Option.none => .ok (.tuple plainTupleInfo elements [])
  | .Seq s, preserve_structs, preserve_class_names =>
    match decodeList s preserve_structs preserve_class_names with
    | .error e => .error e
    | .ok list => .ok (.list list)
  | .Map m, preserve_structs, preserve_class_names =>
    match decodeMap m preserve_structs preserve_class_names [] with
    | .error e => .error e
    | .ok d => .ok (.dict d)
  | .Char c, _, _ => .ok (.str (String.singleton c))
  | .Option (Option.some v), preserve_structs, preserve_class_names =>
    try_val_to_py v preserve_structs preserve_class_names
  | .Option Option.none, _, _ => .ok .none
  | .Unit, _, _ => .ok .none
  | .Include path, _, _ =>
    .error (.valueError ("Unresolved #include(\x22" ++ path ++ "\x22) directive"))
termination_by structural v => v

/-- The element loops of the `Tuple` and `Seq` arms (lib.rs:220-228, 262-271),
failing fast on the first error. -/
def decodeList : List Value → Bool → Bool → Except PyErr (List PyObj)
  | [], _, _ => .ok []
  | v :: rest, preserve_structs, preserve_class_names =>
    match try_val_to_py v preserve_structs preserve_class_names with
    | .error e => .error e
    | .ok p =>
      match decodeList rest preserve_structs preserve_class_names with
      | .error e => .error e
      | .ok ds => .ok (p :: ds)
termination_by structural l => l

/-- The field loop of the `Struct` arm (lib.rs:199-205): build the field dict
by repeated `set_item` with the (string) field name as key. -/
def decodeStructFields : List (String × Value) → Bool → Bool →
    List (String × PyObj) → Except PyErr (List (String × PyObj))
  | [], _, _, acc => .ok acc
  | (k, v) :: rest, preserve_structs, preserve_class_names, acc =>
    match try_val_to_py v preserve_structs preserve_class_names with
    | .error e => .error e
    | .ok pv =>
      decodeStructFields rest preserve_structs preserve_class_names
        (setItemStr acc k pv)
termination_by structural l => l

/-- The entry loop of the `Map` arm (lib.rs:274-282): decode the key, decode
the value, then `set_item` (which can raise `TypeError` on an unhashable
key). -/
def decodeMap : List (Value × Value) → Bool → Bool →
    List (PyObj × PyObj) → Except PyErr (List (PyObj × PyObj))
  | [], _, _, acc => .ok acc
  | (k, v) :: rest, preserve_structs, preserve_class_names, acc =>
    match try_val_to_py k preserve_structs preserve_class_names with
    | .error e => .error e
    | .ok pk =>
      match try_val_to_py v preserve_structs preserve_class_names with
      | .error e => .error e
      | .ok pv =>
        match setItem acc pk pv with
        | .error e => .error e
        | .ok acc' =>
          decodeMap rest preserve_structs preserve_class_names acc'
termination_by structural l => l

end

/-- Result of `ron_parser::load(path)`: a list of parse-error messages (their
exact shape is irrelevant here) and the parsed value. External to this crate;
only its shape is needed. -/
structure Parse where
  errors : List String
  value : Value

/-- Embedding of `load` (lib.rs:21-44). The first argument is the result of
the external `ron_parser::load(path)` call (whose I/O errors propagate first,
via `?`); then the two policy flags are checked for conflict, then parse
errors are reported, then the value is decoded. `print_errors` only controls
diagnostic emission, a side channel with no effect on the result. -/
def load (parsed : Except PyErr Parse) (path : String)
    (preserve_structs preserve_class_names print_errors : Bool) :
    Except PyErr PyObj :=
  match parsed with
  | .error e => .error e
  | .ok parse =>
    if preserve_structs && preserve_class_names then
      .error (.valueError
        "preserve_structs and preserve_class_names cannot be true at the same time")
    else if !parse.errors.isEmpty then
      .error (.valueError ("Fail to parse: " ++ path))
    else try_val_to_py parse.value preserve_structs preserve_class_names

/-- Embedding of `loads` (lib.rs:51-71). The first argument is the result of
the external `ron_parser::parse(s, None)` call. Unlike `load`, the source
contains no check that the two policy flags conflict: a successful parse is
decoded unconditionally. -/
def loads (parsed : Except Parse Value) (s : String)
    (preserve_structs preserve_class_names print_errors : Bool) :
    Except PyErr PyObj :=
  match parsed with
  | .error _ => .error (.valueError ("Fail to parse: " ++ s))
  | .ok value => try_val_to_py value preserve_structs preserve_class_names

mutual

/-- Whether a `Value` tree contains an `Include` node at any depth. -/
def containsInclude : Value → Bool
  | .Include _ => true
  | .Option (Option.some v) => containsInclude v
  | .Seq l => containsIncludeList l
  | .Tuple _ l => containsIncludeList l
  | .Struct _ fs => containsIncludeFields fs
  | .Map m => containsIncludePairs m
  | _ => false
termination_by structural v => v

def containsIncludeList : List Value → Bool
  | [] => false
  | v :: rest => containsInclude v || containsIncludeList rest
termination_by structural l => l

def containsIncludeFields : List (String × Value) → Bool
  | [] => false
  | (_, v) :: rest => containsInclude v || containsIncludeFields rest
termination_by structural l => l

def containsIncludePairs : List (Value × Value) → Bool
  | [] => false
  | (k, v) :: rest =>
    containsInclude k || containsInclude v || containsIncludePairs rest
termination_by structural l => l

end

/-- Modelled from the spec: the external pretty printer (configured by
`to_string` with `struct_names(true)` and `decimal_floats(true)`, lib.rs:8-12)
followed by the external `ron_parser` text parser reproduces the `Value` tree
exactly. In particular `decimalFloats=true` renders mathematically integral
floats with a decimal point (`1.0`, not `1`), so they re-parse as
`Number(Float)`, never `Number(Integer)` (spec section 4.4). Neither the
printer nor the parser is part of this crate (spec section 1 lists both as
external collaborators). -/
def printThenParse (v : Value) : Value := v

/-- The serialize-then-deserialize pipeline of the spec's round-trip property:
`to_string` (= `extract` + external printer) followed by `loads` with the
default policy (both flags false, as the pyfunction defaults declare). -/
def serializeThenLoads (x : PyObj) : Except PyErr PyObj :=
  match extract x with
  | .error e => .error e
  | .ok v => loads (.ok (printThenParse v)) "" false false true

/-- The class of object graphs quantified over by the spec's round-trip
property: finite acyclic graphs of dicts, lists, strings, booleans, 64-bit
integers, (non-NaN) 64-bit floats and `None`. The side conditions are the
invariants every such graph of actual Python objects satisfies:
  * integers fit in a signed 64-bit integer (the claim's "64-bit integers";
    larger ints are lossily encoded as floats, see `extract`);
  * floats are not NaN — Python `==` never holds on NaN, so the claim's
    "structural equality" already excludes NaN payloads (and ron's map
    would merge two NaN keys, which Python keeps apart);
  * dict keys are hashable and pairwise distinct under Python `==`, as in
    every constructible Python dict. -/
inductive PlainGraph : PyObj → Prop
  | str (s : String) : PlainGraph (.str s)
  | bool (b : Bool) : PlainGraph (.bool b)
  | int (i : Int) : fitsI64 i = true → PlainGraph (.int i)
  | float (f : Float) : f.isNaN = false → PlainGraph (.float f)
  | none : PlainGraph .none
  | list (xs : List PyObj) : (∀ x ∈ xs, PlainGraph x) → PlainGraph (.list xs)
  | dict (kvs : List (PyObj × PyObj)) :
      (∀ p ∈ kvs, PlainGraph p.1) →
      (∀ p ∈ kvs, PlainGraph p.2) →
      (∀ p ∈ kvs, hashable p.1 = true) →
      List.Pairwise (fun p q => pyBeq p.1 q.1 = false) kvs →
      PlainGraph (.dict kvs)

/-! Helper lemmas. -/

/-- Successful elementwise decoding preserves the length of the list. -/
theorem decodeList_length (ts : List Value) (ps pc : Bool) :
    ∀ ds, decodeList ts ps pc = .ok ds → ds.length = ts.length := by
  induction ts with
  | nil => intro ds h; simp only [decodeList] at h; cases h; rfl
  | cons v rest ih =>
    intro ds h
    simp only [decodeList] at h
    cases h1 : try_val_to_py v ps pc with
    | error e => rw [h1] at h; cases h
    | ok p =>
      rw [h1] at h
      cases h2 : decodeList rest ps pc with
      | error e => rw [h2] at h; cases h
      | ok ds' =>
        rw [h2] at h
        cases h
        simp [ih ds' h2]

/-- Inserting a hashable key that is `==`-equal to no key of the dict appends
the new entry. -/
theorem setItem_append (d : List (PyObj × PyObj)) (k v : PyObj)
    (hk : hashable k = true) (hfresh : ∀ a ∈ d, pyBeq a.1 k = false) :
    setItem d k v = .ok (d ++ [(k, v)]) := by
  have hany : d.any (fun p => pyBeq p.1 k) = false := by
    simp only [List.any_eq_false]
    intro p hp
    simp [hfresh p hp]
  simp [setItem, hk, hany]

/-! Claim C1. `load` checks the two policy flags for conflict after a
successful parse (lib.rs:29-33), but `loads` contains no such check
(lib.rs:51-71): a string parsed successfully is decoded even with both flags
set, and the `preserve_structs` arms win. -/

/-- Claim C1 (code bug): deserializing the string form with both
`preserve_structs` and `preserve_class_names` set does NOT fail: `loads` has
no conflict check and returns the decoded object (here the synthesized
`Point` record), while `load` on the same value does fail with the
conflicting-policy error. -/
theorem C1_loads_missing_conflict_check :
    loads (.ok (.Struct (Option.some "Point") [("a", .Number (.Integer 1))]))
        "Point(a: 1)" true true true
      = .ok (mkNamedtuple "Point" [("a", .int 1)]) ∧
    load (.ok ⟨[], .Struct (Option.some "Point") [("a", .Number (.Integer 1))]⟩)
        "x.ron" true true true
      = .error (.valueError
          "preserve_structs and preserve_class_names cannot be true at the same time") :=
  ⟨rfl, rfl⟩

/-! Claim C2. `is_namedtuple` (lib.rs:127-145) checks that the type has
exactly one base and a tuple-valued `_fields` attribute, but the check that
the single base is the generic tuple type is missing (the source marks it
with `// TODO: check that bases[0] is tuple`). -/

/-- Claim C2 (code bug): a tuple instance whose type's single base is NOT the
generic tuple type but which carries a tuple-valued `_fields` is classified as
a named record and encoded as a named `Struct`, where the claim (and the
spec's three-condition heuristic) requires a plain unnamed `Tuple`. -/
theorem C2_missing_generic_tuple_base_check :
    is_namedtuple ⟨["NotTheGenericTuple"], Option.some (Option.some ["a"]), "Weird"⟩ = true ∧
    extract (.tuple ⟨["NotTheGenericTuple"], Option.some (Option.some ["a"]), "Weird"⟩
        [.int 1] [("a", .int 1)])
      = .ok (.Struct (Option.some "Weird") [("a", .Number (.Integer 1))]) :=
  ⟨rfl, rfl⟩

/-! Claim C3. With neither flag set an unnamed `Tuple` decodes to a plain
Python tuple (lib.rs:259), not to a mapping with synthetic `_i` keys: the
synthetic keys only appear for NAMED tuples under one of the flags. -/

/-- Claim C3 (counterexample): decoding the unnamed `Tuple` `(7)` with neither
flag set yields a plain Python tuple, not the mapping with key `_0` that the
claim describes. -/
theorem C3_counterexample :
    try_val_to_py (.Tuple Option.none [.Number (.Integer 7)]) false false
      = .ok (.tuple plainTupleInfo [.int 7] []) ∧
    try_val_to_py (.Tuple Option.none [.Number (.Integer 7)]) false false
      ≠ .ok (.dict [(.str "_0", .int 7)]) := by
  refine ⟨rfl, fun h => ?_⟩
  rw [show try_val_to_py (.Tuple Option.none [.Number (.Integer 7)]) false false
      = .ok (.tuple plainTupleInfo [.int 7] []) from rfl] at h
  simp at h

/-- Claim C3 (amended): when neither preservation flag is set, decoding an
unnamed `Tuple` yields a plain fixed-size ordered container (a Python tuple)
of the decoded elements in order, and a `Struct` becomes a plain mapping
keyed by field name; no synthetic `_i` keys are produced for unnamed
tuples. -/
theorem C3_amended_default_decode :
    (∀ (ts : List Value) (ds : List PyObj), decodeList ts false false = .ok ds →
      try_val_to_py (.Tuple Option.none ts) false false
        = .ok (.tuple plainTupleInfo ds [])) ∧
    (∀ (name : Option String) (fs : List (String × Value)) (d : List (String × PyObj)),
      decodeStructFields fs false false [] = .ok d →
      try_val_to_py (.Struct name fs) false false = .ok (.dict (toDictEntries d))) := by
  constructor
  · intro ts ds h
    simp [try_val_to_py, h]
  · intro name fs d h
    cases name <;> simp [try_val_to_py, h]

/-- Witness for C3 (amended) at a concrete input. -/
theorem C3_amended_witness :
    decodeList [Value.Bool true] false false = .ok [PyObj.bool true] ∧
    try_val_to_py (.Tuple Option.none [.Bool true]) false false
      = .ok (.tuple plainTupleInfo [.bool true] []) :=
  ⟨rfl, C3_amended_default_decode.1 [Value.Bool true] [PyObj.bool true] rfl⟩

/-! Claim C5. Unnamed tuples decode to an ordered container of the same arity
under every policy setting, and a tuple-shaped object without a `_fields`
attribute encodes as an unnamed `Tuple`. -/

/-- Claim C5: decoding an unnamed `Tuple` of arity N yields a Python tuple of
its decoded elements in order, of length N, for every setting of the two
policy flags; and a tuple instance whose type lacks the `_fields` attribute is
encoded as a plain unnamed `Tuple` of its extracted elements. -/
theorem C5_unnamed_tuples :
    (∀ (ts : List Value) (ps pc : Bool) (ds : List PyObj),
      decodeList ts ps pc = .ok ds →
      try_val_to_py (.Tuple Option.none ts) ps pc = .ok (.tuple plainTupleInfo ds []) ∧
        ds.length = ts.length) ∧
    (∀ (info : TupleTypeInfo) (elems : List PyObj) (asdict : List (String × PyObj))
        (vs : List Value),
      info.fields = Option.none → extractList elems = .ok vs →
      extract (.tuple info elems asdict) = .ok (.Tuple Option.none vs)) := by
  constructor
  · intro ts ps pc ds h
    exact ⟨by simp [try_val_to_py, h], decodeList_length ts ps pc ds h⟩
  · intro info elems asdict vs hfields hex
    have hnt : is_namedtuple info = false := by
      simp [is_namedtuple, hfields]
    simp [extract, hnt, hex]

/-- Witness for C5 at concrete inputs: a two-element unnamed tuple value under
`preserve_structs=true, preserve_class_names=false`, and a tuple instance
without `_fields`. -/
theorem C5_witness :
    (decodeList [Value.Bool true, Value.String "x"] true false
        = .ok [PyObj.bool true, PyObj.str "x"] ∧
      try_val_to_py (.Tuple Option.none [.Bool true, .String "x"]) true false
        = .ok (.tuple plainTupleInfo [.bool true, .str "x"] []) ∧
      [PyObj.bool true, PyObj.str "x"].length = [Value.Bool true, Value.String "x"].length) ∧
    (TupleTypeInfo.fields ⟨["object"], Option.none, "tuple"⟩ = Option.none ∧
      extractList [.int 3] = .ok [.Number (.Integer 3)] ∧
      extract (.tuple ⟨["object"], Option.none, "tuple"⟩ [.int 3] [])
        = .ok (.Tuple Option.none [.Number (.Integer 3)])) := by
  refine ⟨⟨rfl, ?_⟩, rfl, rfl, ?_⟩
  · have h := C5_unnamed_tuples.1 [Value.Bool true, Value.String "x"] true false
      [PyObj.bool true, PyObj.str "x"] rfl
    exact ⟨h.1, h.2⟩
  · exact C5_unnamed_tuples.2 ⟨["object"], Option.none, "tuple"⟩ [.int 3] []
      [.Number (.Integer 3)] rfl rfl

/-! Claim C7. A named `Struct` under `preserve_class_names` alone flattens to
a plain mapping with the sentinel entry. -/

/-- Claim C7: decoding `Point(a: 1, b: "x")` with `preserve_class_names=true`
and `preserve_structs=false` yields the plain mapping of the decoded fields
plus the single sentinel entry `"!__name__" ↦ "Point"`; the result is a dict,
so no record type is synthesized. -/
theorem C7_sentinel_flattening :
    try_val_to_py (.Struct (Option.some "Point")
        [("a", .Number (.Integer 1)), ("b", .String "x")]) false true
      = .ok (.dict [(.str "a", .int 1), (.str "b", .str "x"),
          (.str "!__name__", .str "Point")]) := rfl

/-! Claim C8. `Unit` and `Option(None)` both decode to Python `None`
(lib.rs:285-289). -/

/-- Claim C8: for every policy setting, decoding `Unit` and decoding
`Option(None)` both produce the Python `None` object, so the caller cannot
tell which of the two was in the tree. -/
theorem C8_unit_equals_option_none (ps pc : Bool) :
    try_val_to_py .Unit ps pc = .ok .none ∧
    try_val_to_py (.Option Option.none) ps pc = .ok .none :=
  ⟨rfl, rfl⟩

/-! Claim C10. An int that overflows i64 but converts to f64 is encoded as a
float (lib.rs:108-111): the i64 extraction is tried first and falls through
on overflow. -/

/-- Claim C10: an integer that does not fit in a signed 64-bit integer but is
convertible to a 64-bit float is encoded as `Number(Float)` by the (lossy)
`Float.ofInt` conversion — not as `Number(Integer)` and not as an
`UnsupportedType` failure. -/
theorem C10_big_int_encodes_as_float (i : Int)
    (h1 : fitsI64 i = false) (h2 : fitsF64 i = true) :
    extract (.int i) = .ok (.Number (.Float (Float.ofInt i))) := by
  simp [extract, h1, h2]

set_option maxRecDepth 8192 in
/-- Witness for C10 at `2^63`, the first integer beyond the i64 range. -/
theorem C10_witness :
    fitsI64 (2 ^ 63) = false ∧ fitsF64 (2 ^ 63) = true ∧
    extract (.int (2 ^ 63)) = .ok (.Number (.Float (Float.ofInt (2 ^ 63)))) :=
  ⟨by decide, by decide, C10_big_int_encodes_as_float (2 ^ 63) (by decide) (by decide)⟩

/-! Claim C9. Both guarded arms of the name `match` in `try_val_to_py` test
`preserve_structs` first (lib.rs:207, 231), so with both flags set the
`preserve_structs` behaviour wins at every node. -/

mutual

theorem psPriority_val : ∀ v : Value,
    try_val_to_py v true true = try_val_to_py v true false
  | .String _ => rfl
  | .Number (.Float _) => rfl
  | .Number (.Integer _) => rfl
  | .Bool _ => rfl
  | .Struct name fs => by
    have h := psPriority_structFields fs []
    simp only [try_val_to_py, h]
    cases hd : decodeStructFields fs true false [] with
    | error e => rfl
    | ok d => cases name <;> rfl
  | .Tuple name ts => by
    have h := psPriority_list ts
    simp only [try_val_to_py, h]
    cases hd : decodeList ts true false with
    | error e => rfl
    | ok elements => cases name <;> rfl
  | .Seq s => by
    have h := psPriority_list s
    simp only [try_val_to_py, h]
  | .Map m => by
    have h := psPriority_map m []
    simp only [try_val_to_py, h]
  | .Char _ => rfl
  | .Option (Option.some v) => by
    have h := psPriority_val v
    simp only [try_val_to_py, h]
  | .Option Option.none => rfl
  | .Unit => rfl
  | .Include _ => rfl
termination_by structural v => v

theorem psPriority_list : ∀ l : List Value,
    decodeList l true true = decodeList l true false
  | [] => rfl
  | v :: rest => by
    have h := psPriority_val v
    have hr := psPriority_list rest
    simp only [decodeList, h, hr]
termination_by structural l => l

theorem psPriority_structFields : ∀ (fs : List (String × Value))
      (acc : List (String × PyObj)),
    decodeStructFields fs true true acc = decodeStructFields fs true false acc
  | [], _ => rfl
  | (k, v) :: rest, acc => by
    have h := psPriority_val v
    simp only [decodeStructFields, h]
    cases hv : try_val_to_py v true false with
    | error e => rfl
    | ok pv => exact psPriority_structFields rest (setItemStr acc k pv)
termination_by structural fs acc => fs

theorem psPriority_map : ∀ (m : List (Value × Value))
      (acc : List (PyObj × PyObj)),
    decodeMap m true true acc = decodeMap m true false acc
  | [], _ => rfl
  | (k, v) :: rest, acc => by
    have hk := psPriority_val k
    have hv := psPriority_val v
    simp only [decodeMap, hk, hv]
    cases h1 : try_val_to_py k true false with
    | error e => rfl
    | ok pk =>
      cases h2 : try_val_to_py v true false with
      | error e => rfl
      | ok pv =>
        cases h3 : setItem acc pk pv with
        | error e => simp only [h3]
        | ok acc' =>
          simp only [h3]
          exact psPriority_map rest acc'
termination_by structural m acc => m

end

/-- Claim C9: in the core decode function, when both `preserve_structs` and
`preserve_class_names` are true, `preserve_structs` takes priority at every
named `Struct` and named `Tuple` node: decoding equals decoding with
`preserve_structs=true` and `preserve_class_names=false`. -/
theorem C9_preserve_structs_priority (v : Value) :
    try_val_to_py v true true = try_val_to_py v true false :=
  psPriority_val v

/-! Claim C6. Every subvalue of a `Value` tree is decoded before the result is
assembled, and the `Include` arm always fails (lib.rs:290-295), so a decode
that succeeds cannot have contained an `Include` node. The converse
refinement of the claim fails: the error that surfaces need not be
`UnresolvedInclude` — a failure raised earlier in the traversal (an
unhashable `Map` key, turned into a `TypeError` by `dict.set_item` as the
spec's `UnhashableKey` describes) wins. -/

mutual

theorem okNoInclude_val : ∀ (v : Value) (ps pc : Bool) (o : PyObj),
    try_val_to_py v ps pc = .ok o → containsInclude v = false
  | .String _, _, _, _, _ => rfl
  | .Number (.Float _), _, _, _, _ => rfl
  | .Number (.Integer _), _, _, _, _ => rfl
  | .Bool _, _, _, _, _ => rfl
  | .Struct name fs, ps, pc, o, h => by
    simp only [try_val_to_py] at h
    cases hd : decodeStructFields fs ps pc [] with
    | error e => rw [hd] at h; cases h
    | ok d =>
      simpa [containsInclude] using okNoInclude_structFields fs ps pc [] d hd
  | .Tuple name ts, ps, pc, o, h => by
    simp only [try_val_to_py] at h
    cases hd : decodeList ts ps pc with
    | error e => rw [hd] at h; cases h
    | ok elements =>
      simpa [containsInclude] using okNoInclude_list ts ps pc elements hd
  | .Seq s, ps, pc, o, h => by
    simp only [try_val_to_py] at h
    cases hd : decodeList s ps pc with
    | error e => rw [hd] at h; cases h
    | ok list =>
      simpa [containsInclude] using okNoInclude_list s ps pc list hd
  | .Map m, ps, pc, o, h => by
    simp only [try_val_to_py] at h
    cases hd : decodeMap m ps pc [] with
    | error e => rw [hd] at h; cases h
    | ok d =>
      simpa [containsInclude] using okNoInclude_map m ps pc [] d hd
  | .Char _, _, _, _, _ => rfl
  | .Option (Option.some v), ps, pc, o, h => by
    simp only [try_val_to_py] at h
    simpa [containsInclude] using okNoInclude_val v ps pc o h
  | .Option Option.none, _, _, _, _ => rfl
  | .Unit, _, _, _, _ => rfl
  | .Include path, ps, pc, o, h => by cases h
termination_by structural v => v

theorem okNoInclude_list : ∀ (l : List Value) (ps pc : Bool) (ds : List PyObj),
    decodeList l ps pc = .ok ds → containsIncludeList l = false
  | [], _, _, _, _ => rfl
  | v :: rest, ps, pc, ds, h => by
    simp only [decodeList] at h
    cases h1 : try_val_to_py v ps pc with
    | error e => rw [h1] at h; cases h
    | ok p =>
      rw [h1] at h
      cases h2 : decodeList rest ps pc with
      | error e => rw [h2] at h; cases h
      | ok ds' =>
        simp [containsIncludeList, okNoInclude_val v ps pc p h1,
          okNoInclude_list rest ps pc ds' h2]
termination_by structural l => l

theorem okNoInclude_structFields : ∀ (fs : List (String × Value)) (ps pc : Bool)
      (acc d : List (String × PyObj)),
    decodeStructFields fs ps pc acc = .ok d → containsIncludeFields fs = false
  | [], _, _, _, _, _ => rfl
  | (k, v) :: rest, ps, pc, acc, d, h => by
    simp only [decodeStructFields] at h
    cases h1 : try_val_to_py v ps pc with
    | error e => rw [h1] at h; cases h
    | ok pv =>
      rw [h1] at h
      simp [containsIncludeFields, okNoInclude_val v ps pc pv h1,
        okNoInclude_structFields rest ps pc (setItemStr acc k pv) d h]
termination_by structural fs ps pc acc d h => fs

theorem okNoInclude_map : ∀ (m : List (Value × Value)) (ps pc : Bool)
      (acc d : List (PyObj × PyObj)),
    decodeMap m ps pc acc = .ok d → containsIncludePairs m = false
  | [], _, _, _, _, _ => rfl
  | (k, v) :: rest, ps, pc, acc, d, h => by
    simp only [decodeMap] at h
    cases h1 : try_val_to_py k ps pc with
    | error e => rw [h1] at h; cases h
    | ok pk =>
      simp only [h1] at h
      cases h2 : try_val_to_py v ps pc with
      | error e => rw [h2] at h; cases h
      | ok pv =>
        simp only [h2] at h
        cases h3 : setItem acc pk pv with
        | error e => rw [h3] at h; cases h
        | ok acc' =>
          rw [h3] at h
          simp [containsIncludePairs, okNoInclude_val k ps pc pk h1,
            okNoInclude_val v ps pc pv h2,
            okNoInclude_map rest ps pc acc' d h]
termination_by structural m ps pc acc d h => m

end

/-- Claim C6 (counterexample): a `Value` tree that contains
`Include("other.ron")` but whose `Map` has an earlier unhashable key (a list)
fails with the unhashable-key `TypeError` raised by `dict.set_item`, not with
the `UnresolvedInclude` error the claim promises. -/
theorem C6_counterexample :
    containsInclude (.Map [(.Seq [], .Bool true), (.Unit, .Include "other.ron")]) = true ∧
    try_val_to_py (.Map [(.Seq [], .Bool true), (.Unit, .Include "other.ron")]) false false
      = .error (.typeError "unhashable type: list") ∧
    try_val_to_py (.Map [(.Seq [], .Bool true), (.Unit, .Include "other.ron")]) false false
      ≠ .error (.valueError "Unresolved #include(\x22other.ron\x22) directive") := by
  refine ⟨rfl, rfl, fun h => ?_⟩
  rw [show try_val_to_py (.Map [(.Seq [], .Bool true), (.Unit, .Include "other.ron")])
        false false = .error (.typeError "unhashable type: list") from rfl] at h
  simp at h

/-- Claim C6 (amended): for every `Value` tree containing an `Include` node at
any depth and every policy setting, decoding fails with some error — an
`Include` node is never silently skipped or resolved; decoding the `Include`
node itself always yields the `UnresolvedInclude` error carrying its path,
but an earlier failure of the traversal (such as an unhashable `Map` key) may
surface instead of `UnresolvedInclude`. -/
theorem C6_amended_include_never_decodes :
    (∀ (v : Value) (ps pc : Bool), containsInclude v = true →
      ∃ e, try_val_to_py v ps pc = .error e) ∧
    (∀ (path : String) (ps pc : Bool),
      try_val_to_py (.Include path) ps pc
        = .error (.valueError ("Unresolved #include(\x22" ++ path ++ "\x22) directive"))) := by
  refine ⟨fun v ps pc h => ?_, fun path ps pc => rfl⟩
  cases hr : try_val_to_py v ps pc with
  | error e => exact ⟨e, rfl⟩
  | ok o => rw [okNoInclude_val v ps pc o hr] at h; cases h

/-- Witness for C6 (amended): a tree with a nested include fails to decode. -/
theorem C6_amended_witness :
    containsInclude (.Seq [.Include "other.ron"]) = true ∧
    (∃ e, try_val_to_py (.Seq [.Include "other.ron"]) false false = .error e) :=
  ⟨rfl, C6_amended_include_never_decodes.1 (.Seq [.Include "other.ron"]) false false rfl⟩

/-! Claim C4. Round trip for plain container graphs: encode with `extract`,
print and re-parse (the identity on the `Value` tree, see `printThenParse`),
decode with the default policy. -/

/-- Elementwise round trip for lists. -/
theorem rt_list (xs : List PyObj)
    (h : ∀ x ∈ xs, ∃ v, extract x = .ok v ∧ try_val_to_py v false false = .ok x) :
    ∃ vs, extractList xs = .ok vs ∧ decodeList vs false false = .ok xs := by
  induction xs with
  | nil => exact ⟨[], rfl, rfl⟩
  | cons x rest ih =>
    obtain ⟨v, hv, hd⟩ := h x (by simp)
    obtain ⟨vs, hvs, hds⟩ := ih fun y hy => h y (by simp [hy])
    exact ⟨v :: vs, by simp [extractList, hv, hvs], by simp [decodeList, hd, hds]⟩

/-- Round trip for the entries of a dict: extraction succeeds pairwise, and
rebuilding by repeated `set_item` starting from any accumulator whose keys
are disjoint from the dict's keys appends exactly the original entries. -/
theorem rt_pairs (kvs : List (PyObj × PyObj))
    (hk : ∀ p ∈ kvs, ∃ v, extract p.1 = .ok v ∧ try_val_to_py v false false = .ok p.1)
    (hv : ∀ p ∈ kvs, ∃ v, extract p.2 = .ok v ∧ try_val_to_py v false false = .ok p.2)
    (hh : ∀ p ∈ kvs, hashable p.1 = true)
    (hp : List.Pairwise (fun p q => pyBeq p.1 q.1 = false) kvs) :
    ∀ acc, (∀ a ∈ acc, ∀ p ∈ kvs, pyBeq a.1 p.1 = false) →
    ∃ pvs, extractPairs kvs = .ok pvs ∧ decodeMap pvs false false acc = .ok (acc ++ kvs) := by
  induction kvs with
  | nil => exact fun acc _ => ⟨[], rfl, by simp [decodeMap]⟩
  | cons p rest ih =>
    intro acc hfresh
    obtain ⟨hhead, htail⟩ := List.pairwise_cons.mp hp
    obtain ⟨kv, hkex, hkdec⟩ := hk p (by simp)
    obtain ⟨vv, hvex, hvdec⟩ := hv p (by simp)
    have hset : setItem acc p.1 p.2 = .ok (acc ++ [p]) :=
      setItem_append acc p.1 p.2 (hh p (by simp))
        (fun a ha => hfresh a ha p (by simp))
    obtain ⟨pvs, hpex, hpdec⟩ :=
      ih (fun q hq => hk q (by simp [hq])) (fun q hq => hv q (by simp [hq]))
        (fun q hq => hh q (by simp [hq])) htail (acc ++ [p])
        (by
          intro a ha q hq
          rcases List.mem_append.mp ha with ha' | ha'
          · exact hfresh a ha' q (by simp [hq])
          · have : a = p := by simpa using ha'
            subst this
            exact hhead q hq)
    refine ⟨(kv, vv) :: pvs, by simp [extractPairs, hkex, hvex, hpex], ?_⟩
    simp only [decodeMap, hkdec, hvdec, hset, hpdec]
    simp

/-- Round trip for every graph in the spec's plain-container class: `extract`
succeeds and decoding the resulting `Value` with the default policy rebuilds
the original object. -/
theorem rt_main (x : PyObj) (h : PlainGraph x) :
    ∃ v, extract x = .ok v ∧ try_val_to_py v false false = .ok x := by
  induction h with
  | str s => exact ⟨_, rfl, rfl⟩
  | bool b => exact ⟨_, rfl, rfl⟩
  | int i hi => exact ⟨.Number (.Integer i), by simp [extract, hi], rfl⟩
  | float f _ => exact ⟨_, rfl, rfl⟩
  | none => exact ⟨_, rfl, rfl⟩
  | list xs _ ih =>
    obtain ⟨vs, hex, hdec⟩ := rt_list xs ih
    exact ⟨.Seq vs, by simp [extract, hex], by simp [try_val_to_py, hdec]⟩
  | dict kvs _ _ hh hp ihk ihv =>
    obtain ⟨pvs, hex, hdec⟩ := rt_pairs kvs ihk ihv hh hp [] (by simp)
    exact ⟨.Map pvs, by simp [extract, hex], by simp [try_val_to_py, hdec]⟩

/-- Claim C4: for every finite acyclic object graph built only from dicts,
lists, strings, booleans, 64-bit integers, 64-bit floats and `None` (see
`PlainGraph`), serializing and deserializing with the default policy returns
an object equal to the original; in particular a float comes back as a float,
never as an integer, because the printer is configured with
`decimal_floats(true)` (see `printThenParse`). -/
theorem C4_roundtrip (x : PyObj) (h : PlainGraph x) :
    serializeThenLoads x = .ok x := by
  obtain ⟨v, hex, hdec⟩ := rt_main x h
  simp [serializeThenLoads, hex, printThenParse, loads, hdec]

/-- Witness for C4 on a nested concrete graph: a dict with string and int
keys whose values include an int, a list of a bool and `None`, and a string.
(Float payloads are covered by the universally quantified theorem; the
witness omits them because `Float` operations have no kernel reduction.) -/
theorem C4_witness :
    PlainGraph (.dict [(.str "a", .int 1),
      (.str "b", .list [.bool true, .none]),
      (.int 2, .str "z")]) ∧
    serializeThenLoads (.dict [(.str "a", .int 1),
      (.str "b", .list [.bool true, .none]),
      (.int 2, .str "z")])
      = .ok (.dict [(.str "a", .int 1),
          (.str "b", .list [.bool true, .none]),
          (.int 2, .str "z")]) := by
  have hx : PlainGraph (.dict [(.str "a", .int 1),
      (.str "b", .list [.bool true, .none]),
      (.int 2, .str "z")]) := by
    refine PlainGraph.dict _ ?_ ?_ ?_ ?_
    · intro p hp
      simp only [List.mem_cons, List.not_mem_nil, or_false] at hp
      rcases hp with rfl | rfl | rfl
      · exact PlainGraph.str "a"
      · exact PlainGraph.str "b"
      · exact PlainGraph.int 2 (by decide)
    · intro p hp
      simp only [List.mem_cons, List.not_mem_nil, or_false] at hp
      rcases hp with rfl | rfl | rfl
      · exact PlainGraph.int 1 (by decide)
      · refine PlainGraph.list _ ?_
        intro y hy
        simp only [List.mem_cons, List.not_mem_nil, or_false] at hy
        rcases hy with rfl | rfl
        · exact PlainGraph.bool true
        · exact PlainGraph.none
      · exact PlainGraph.str "z"
    · intro p hp
      simp only [List.mem_cons, List.not_mem_nil, or_false] at hp
      rcases hp with rfl | rfl | rfl <;> rfl
    · refine List.Pairwise.cons ?_ (List.Pairwise.cons ?_ (List.Pairwise.cons ?_ List.Pairwise.nil))
      · intro q hq
        simp only [List.mem_cons, List.not_mem_nil, or_false] at hq
        rcases hq with rfl | rfl <;> rfl
      · intro q hq
        simp only [List.mem_cons, List.not_mem_nil, or_false] at hq
        rcases hq with rfl <;> rfl
      · intro q hq
        cases hq
  exact ⟨hx, C4_roundtrip _ hx⟩

end Pyron
